import Mathlib

/-
Verification of the adaptive fetch-and-ingest news pipeline.

The definitions below are a shallow embedding of the Python sources:
  backend/scrapers/base/base_scraper.py     (BaseScraper.get, fetch_html, normalize_domain)
  backend/scrapers/base/browser_scraper.py  (normalize_domain)
  backend/scrapers/base/hybrid_scraper.py   (HybridScraper.fetch_html)
  backend/core/runner.py                    (_title_from_url, _derive_title, process_item,
                                             run_single_cycle)
  backend/core/rss_collector.py             (_clean_rss_text, _entry_to_item, collect)

External effects (the network, the browser, parser modules, the article store and
the seen-URL store) are passed in as explicit values or functions, so every
definition is an executable, total Lean function.  Machine-level details that the
claims do not touch (wall-clock politeness timing, logging, proxies and headers
other than Retry-After) are elided; backoff sleeps are recorded as a trace of
durations because the retry policy is itself under scrutiny.
-/

/-! ## Python string primitives

Python string operations used by the sources, modelled exactly:
`str.replace` replaces every non-overlapping occurrence left to right,
`str.strip` drops leading and trailing whitespace, `str.lower` lower-cases,
`x in s` is substring containment, and `s or t` yields `t` when `s` is empty. -/

/-- Python list-of-chars replace: replaces every non-overlapping occurrence of
`pat` by `rep`, scanning left to right.  Structural recursion on a fuel
argument (one unit per step; each step consumes at least one character). -/
def replace_all_aux (pat rep : List Char) : Nat → List Char → List Char
  | 0, s => s
  | _ + 1, [] => []
  | fuel + 1, c :: rest =>
    if !pat.isEmpty && pat.isPrefixOf (c :: rest) then
      rep ++ replace_all_aux pat rep fuel ((c :: rest).drop pat.length)
    else
      c :: replace_all_aux pat rep fuel rest

/-- Python `s.replace(pat, rep)`. -/
def py_replace (s pat rep : String) : String :=
  ⟨replace_all_aux pat.data rep.data s.data.length s.data⟩

/-- Python `s.strip()` (whitespace on both ends). -/
def py_strip (s : String) : String :=
  ⟨((s.data.dropWhile Char.isWhitespace).reverse.dropWhile Char.isWhitespace).reverse⟩

/-- Python `s.lower()` (ASCII case-folding suffices for the domain strings here). -/
def py_lower (s : String) : String :=
  ⟨s.data.map Char.toLower⟩

/-- Substring test on character lists. -/
def contains_sub (needle : List Char) : List Char → Bool
  | [] => needle.isEmpty
  | c :: rest => needle.isPrefixOf (c :: rest) || contains_sub needle rest

/-- Python `needle in hay` for strings. -/
def py_in (needle hay : String) : Bool :=
  contains_sub needle.data hay.data

/-- Python `a or b` on strings (empty string is falsy). -/
def py_or_str (a b : String) : String :=
  if a == "" then b else a

/-- Python `a or b` where both operands are `str | None` (None and `""` are falsy). -/
def py_or (a b : Option String) : Option String :=
  match a with
  | none => b
  | some s => if s == "" then b else some s

/-- Python `not x` for an optional string: `True` exactly on `None` and `""`. -/
def py_falsy (t : Option String) : Bool :=
  match t with
  | none => true
  | some s => s == ""

/-! ## URL parsing

Python `urllib.parse.urlparse`, restricted to the absolute `scheme://netloc/path`
URLs this pipeline handles: `netloc` is everything after the first `://` up to
the next `/`, `?` or `#`; `path` is the rest up to `?` or `#`.  A URL with no
`://` has an empty netloc and is all path (matching `urlparse` on such inputs). -/

/-- Drop everything up to and including the first occurrence of `://`. -/
def after_scheme_sep : List Char → Option (List Char)
  | [] => none
  | ':' :: '/' :: '/' :: rest => some rest
  | _ :: rest => after_scheme_sep rest

/-- Characters that end the network-location component. -/
def netloc_stop (c : Char) : Bool :=
  c == '/' || c == '?' || c == '#'

/-- Python `urlparse(url).netloc`. -/
def url_netloc (url : String) : String :=
  match after_scheme_sep url.data with
  | none => ""
  | some rest => ⟨rest.takeWhile (fun c => !(netloc_stop c))⟩

/-- Python `urlparse(url).path`. -/
def url_path (url : String) : String :=
  match after_scheme_sep url.data with
  | none => ⟨url.data.takeWhile (fun c => !(c == '?' || c == '#'))⟩
  | some rest =>
    ⟨(rest.dropWhile (fun c => !(netloc_stop c))).takeWhile (fun c => !(c == '?' || c == '#'))⟩

/-! ## Domain normalization

Two syntactically identical copies exist in the sources, one in
`base_scraper.py` and one in `browser_scraper.py`; both are embedded so their
agreement can be stated.  Note the source uses `str.replace`, which removes
every occurrence of `www.`, not only a leading prefix. -/

/-- backend/scrapers/base/base_scraper.py, `normalize_domain`:
`netloc.lower().replace("www.", "").strip()`. -/
def normalize_domain (netloc : String) : String :=
  py_strip (py_replace (py_lower netloc) "www." "")

/-- backend/scrapers/base/browser_scraper.py, `normalize_domain` (an independent
copy with the same body). -/
def browser_normalize_domain (netloc : String) : String :=
  py_strip (py_replace (py_lower netloc) "www." "")

/-! ## HTTP fetch strategy (BaseScraper)

The network is a function from the attempt number (1-based, as in the source's
`for attempt in range(1, max_retries + 1)`) to what that attempt produces:
either a `requests.RequestException` or a response.  A response carries the
fields `get` inspects: status code, decoded body text, and the raw Retry-After
header (absent, or an arbitrary string).  The loop only catches
`requests.RequestException`; the `int()` applied to a present Retry-After
header can raise `ValueError`, which escapes `get`, so `get` returns in an
`Except` over raised Python errors.  `get` additionally records every backoff
`time.sleep` duration, in order, so the retry policy can be stated. -/

/-- A raised Python error that escapes `BaseScraper.get`: the `ValueError`
from `int()` on a non-numeric Retry-After header (`requests.RequestException`
is the only class the retry loop catches). -/
inductive PyError where
  | valueError
deriving DecidableEq

/-- Decimal-digit accumulation for `py_int_of_string`. -/
def parse_nat_digits (acc : Nat) : List Char → Option Nat
  | [] => some acc
  | c :: rest =>
    if c.isDigit then parse_nat_digits (acc * 10 + (c.toNat - 48)) rest else none

/-- Python `int(s)` on a string: surrounding whitespace ignored, an optional
sign, then at least one decimal digit; anything else raises `ValueError`.
(Digit-group underscores, which Python also accepts, are not modelled; no
claim touches them.) -/
def py_int_of_string (s : String) : Except PyError Int :=
  match (py_strip s).data with
  | [] => Except.error PyError.valueError
  | '+' :: rest =>
    (match rest, parse_nat_digits 0 rest with
     | _ :: _, some n => Except.ok (n : Int)
     | _, _ => Except.error PyError.valueError)
  | '-' :: rest =>
    (match rest, parse_nat_digits 0 rest with
     | _ :: _, some n => Except.ok (-(n : Int))
     | _, _ => Except.error PyError.valueError)
  | l =>
    (match parse_nat_digits 0 l with
     | some n => Except.ok (n : Int)
     | none => Except.error PyError.valueError)

/-- The parts of a `requests.Response` that `BaseScraper.get` reads.
`retryAfter` is the raw header value: absent, or the header string. -/
structure Resp0 where
  status : Int
  body : String
  retryAfter : Option String
deriving DecidableEq

/-- base_scraper.py:163, `int(resp.headers.get("Retry-After", 0) or 0)`: an
absent or empty header coalesces to 0; a non-empty header string goes through
Python `int()`, which raises `ValueError` on non-numeric values. -/
def retry_after_value (h : Option String) : Except PyError Int :=
  match h with
  | none => Except.ok 0
  | some s => if s == "" then Except.ok 0 else py_int_of_string s

/-- What one HTTP attempt yields: a response, or a raised transport exception. -/
inductive AttemptOutcome where
  | success (r : Resp0)
  | exc
deriving DecidableEq

/-- The value `BaseScraper.get` hands back: a response-shaped value with the
`_suspected_block` flag the source attaches. -/
structure GetResult where
  status : Int
  body : String
  suspectedBlock : Bool
deriving DecidableEq

/-- Block-page signal list of `BaseScraper._is_block_page`. -/
def BASE_BLOCK_SIGNALS : List String :=
  ["cloudflare", "attention required", "verify you are human",
   "checking your browser", "just a moment", "are you a robot",
   "access denied", "/cdn-cgi/", "bot detection", "captcha"]

/-- `BaseScraper._is_block_page`: any signal occurs in the lower-cased body. -/
def is_block_page (txtLower : String) : Bool :=
  BASE_BLOCK_SIGNALS.any (fun sig => py_in sig txtLower)

/-- The retry loop of `BaseScraper.get`.  `rem` is the number of attempts still
allowed, `attempt` the 1-based number of the next attempt, `last` the source's
`last_resp`.  Returns the final result together with the trace of backoff
sleeps (`time.sleep` durations, in seconds, in order) — or the raised
`ValueError` when a 403/429 response carries a non-numeric Retry-After header,
which the `except requests.RequestException` handler does not catch. -/
def get_aux (env : Nat → AttemptOutcome) :
    Nat → Nat → Option Resp0 → Except PyError (GetResult × List Int)
  | 0, _, last =>
    -- out of retries: flag and return the last response, else fabricate a dummy
    Except.ok
      (match last with
       | some r => ⟨r.status, r.body, true⟩
       | none => ⟨599, "", true⟩, [])
  | rem + 1, attempt, last =>
    match env attempt with
    | AttemptOutcome.success r =>
      if r.status == 200 then
        if is_block_page (py_lower r.body) then Except.ok (⟨r.status, r.body, true⟩, [])
        else Except.ok (⟨r.status, r.body, false⟩, [])
      else if r.status == 403 || r.status == 429 then
        -- `int(resp.headers.get("Retry-After", 0) or 0)`: may raise ValueError
        match retry_after_value r.retryAfter with
        | Except.error e => Except.error e
        | Except.ok retryAfterVal =>
          let sleepDur := if 0 < retryAfterVal then retryAfterVal
            else 4 * (attempt : Int)
          Except.map (fun rs => (rs.1, sleepDur :: rs.2))
            (get_aux env rem (attempt + 1) (some r))
      else
        -- other statuses: sleep 2 * attempt and retry
        Except.map (fun rs => (rs.1, (2 * (attempt : Int)) :: rs.2))
          (get_aux env rem (attempt + 1) (some r))
    | AttemptOutcome.exc =>
      Except.map (fun rs => (rs.1, (2 * (attempt : Int)) :: rs.2))
        (get_aux env rem (attempt + 1) last)

/-- A complete run of `BaseScraper.get`: final result, backoff trace, and the
key used for the per-domain politeness bookkeeping
(`normalize_domain(urlparse(url).netloc)`). -/
structure GetRun where
  result : GetResult
  sleeps : List Int
  delayKey : String
deriving DecidableEq

/-- `BaseScraper.get(url)` under network behaviour `env` with `max_retries`
attempts (source default 3); raises exactly when the retry loop does. -/
def base_get (env : Nat → AttemptOutcome) (maxRetries : Nat) (url : String) :
    Except PyError GetRun :=
  Except.map (fun rs => ⟨rs.1, rs.2, normalize_domain (url_netloc url)⟩)
    (get_aux env maxRetries 1 none)

/-- A parsed document (`BeautifulSoup(text, "html.parser")`), i.e. the source
text it was built from. -/
structure Soup where
  html : String
deriving DecidableEq

/-- `BaseScraper.fetch_html(url)`: an exception raised inside `get` propagates
(there is no handler); when `get` returns, the `isinstance` guard cannot fail —
`get` only ever returns a response value — so this always wraps
`BeautifulSoup(resp.text or "", "html.parser")`. -/
def base_fetch_html (env : Nat → AttemptOutcome) (maxRetries : Nat) (url : String) :
    Except PyError (Option Soup) :=
  match base_get env maxRetries url with
  | Except.error e => Except.error e
  | Except.ok run => Except.ok (some ⟨py_or_str run.result.body ""⟩)

/-! ## Strategy selector (HybridScraper)

The browser strategy and the base strategy enter as environment values: the
outcome of `self.base.get(url)` (which may itself raise, caught by
`_fetch_with_base`), and the availability plus outcome of
`self.browser.fetch_html(url)` (which may raise, caught by
`_fetch_with_browser`). -/

/-- Strategy actually invoked during a `HybridScraper.fetch_html` call. -/
inductive Strat where
  | http
  | browser
deriving DecidableEq

/-- The browser half of the environment: `self.browser` truthiness and the
outcome of `browser.fetch_html(url)`. -/
structure BrowserParam where
  available : Bool
  fetchResult : Except Unit (Option String)

/-- Signal list of `HybridScraper._probably_blocked_html`. -/
def HYBRID_BLOCK_SIGNALS : List String :=
  ["access denied", "cloudflare", "verify you are human", "checking your browser",
   "bot detection", "just a moment", "/cdn-cgi/", "captcha"]

/-- `HybridScraper._probably_blocked_html`: empty or implausibly short HTML, or
any block signal in the lower-cased text. -/
def probably_blocked_html (html : String) : Bool :=
  if html == "" || html.length < 300 then true
  else HYBRID_BLOCK_SIGNALS.any (fun sig => py_in sig (py_lower html))

/-- `HybridScraper._fetch_with_base`: returns `(soup, blocked_flag)`. -/
def fetch_with_base (baseGet : Except Unit GetResult) : Option Soup × Bool :=
  match baseGet with
  | Except.error _ => (none, true)      -- BaseScraper crash
  | Except.ok resp =>
    if resp.suspectedBlock then (none, true)
    else if !(resp.status == 200) then (none, true)
    else
      let html := py_or_str resp.body ""
      if probably_blocked_html html then (none, true)
      else (some ⟨html⟩, false)

/-- `HybridScraper._fetch_with_browser`. -/
def fetch_with_browser (b : BrowserParam) : Option Soup :=
  if !b.available then none
  else
    match b.fetchResult with
    | Except.error _ => none            -- BrowserScraper crash
    | Except.ok none => none
    | Except.ok (some html) => if html == "" then none else some ⟨html⟩

/-- `HybridScraper.__init__`: the configured hard domains are themselves
normalized before membership tests. -/
def mk_hybrid_hard_domains (hardDomains : List String) : List String :=
  hardDomains.map normalize_domain

/-- `HybridScraper.fetch_html(url, mode)`.  Unknown modes raise `ValueError`
(the `Except.error` case); otherwise the result is the fetched document
together with the list of strategies invoked, in order. -/
def hybrid_fetch_html (hardDomains : List String) (baseGet : Except Unit GetResult)
    (browser : BrowserParam) (url : String) (mode : String) :
    Except String (Option Soup × List Strat) :=
  let netloc := normalize_domain (url_netloc url)
  if !(mode == "simple" || mode == "browser" || mode == "auto") then
    Except.error ("Unknown mode " ++ mode)
  else if mode == "browser" then
    Except.ok (fetch_with_browser browser, [Strat.browser])
  else if mode == "auto" && (mk_hybrid_hard_domains hardDomains).contains netloc then
    -- hard domain always prefers browser in auto mode
    Except.ok (fetch_with_browser browser, [Strat.browser])
  else
    let sb := fetch_with_base baseGet
    if mode == "simple" then
      Except.ok (sb.1, [Strat.http])
    else if sb.2 || sb.1.isNone then
      Except.ok (fetch_with_browser browser, [Strat.http, Strat.browser])
    else
      Except.ok (sb.1, [Strat.http])

/-! ## Title derivation (runner helpers) -/

/-- Python `path.split("/")[-1]`: the characters after the last slash. -/
def last_segment (s : List Char) : List Char :=
  s.foldl (fun acc c => if c == '/' then [] else acc ++ [c]) []

/-- `runner._title_from_url`: make a human-ish title from the URL slug.  The
source wraps everything in try/except, but no step here can raise. -/
def title_from_url (url : String) : Option String :=
  let path := url_path url
  -- `path.rstrip("/").split("/")[-1]`
  let slug0 := last_segment ((path.data.reverse.dropWhile (fun c => c == '/')).reverse)
  -- drop extension if any: `slug.split(".", 1)[0]`
  let slug1 := if slug0.contains '.' then slug0.takeWhile (fun c => !(c == '.')) else slug0
  -- `slug.replace("-", " ").replace("_", " ").strip()`
  let slug2 := py_strip (py_replace (py_replace ⟨slug1⟩ "-" " ") "_" " ")
  if slug2 == "" then none
  else
    -- `slug[0].upper() + slug[1:]`
    match slug2.data with
    | [] => none
    | c :: rest => some ⟨Char.toUpper c :: rest⟩

/-- A feed item as assembled by the collector and consumed by the runner. -/
structure Item where
  source : String
  link : String
  rssDate : Option String
  title : Option String
  summary : Option String
  description : Option String
deriving DecidableEq

/-- The loop shared by `_derive_title` and the runner's `rss_summary`
computation: the first field that is a string with non-empty strip, stripped. -/
def first_stripped : List (Option String) → Option String
  | [] => none
  | none :: rest => first_stripped rest
  | some v :: rest =>
    if py_strip v == "" then first_stripped rest else some (py_strip v)

/-- `runner._derive_title`: feed title, then summary, then description, then
the URL-slug fallback. -/
def derive_title (item : Item) : Option String :=
  match first_stripped [item.title, item.summary, item.description] with
  | some t => some t
  | none =>
    -- `if isinstance(link, str) and link:`
    if item.link == "" then none
    else
      match title_from_url item.link with
      | some slugTitle => if slugTitle == "" then none else some slugTitle
      | none => none

/-! ## Ingestion orchestrator (runner)

`process_item` consumes: the portal configuration map (`config.portals.PORTALS`),
the parser registry (`runner.PARSERS`; a parser may raise, which the runner
catches), the outcome of `fetch_article_soup` for this item (which may raise,
also caught), and the article store's `insert_news` (absent from the sources).

Modelled from the spec: `core.db.insert_news` is not among the source files;
per the article-store contract it is `insert(...) -> success boolean`, so it
enters as an arbitrary boolean-valued function of the inserted record. -/

/-- One portal's entry in `config.portals.PORTALS` (a `TypedDict` with
`total=False`: every key may be absent). -/
structure PortalCfg where
  rss : Option (List String)
  enabled : Option Bool
  scrapeMode : Option String
  hardDomains : Option (List String)
deriving DecidableEq

/-- `PORTALS.get(source, {}).get("enabled", True)`. -/
def portal_enabled (portals : String → Option PortalCfg) (s : String) : Bool :=
  match portals s with
  | some cfg => cfg.enabled.getD true
  | none => true

/-- `PORTALS.get(source, {}).get("scrape_mode", "simple")`. -/
def portal_mode (portals : String → Option PortalCfg) (s : String) : String :=
  match portals s with
  | some cfg => cfg.scrapeMode.getD "simple"
  | none => "simple"

/-- The record a source-specific parser returns (all keys optional; a parser
returning `None` is coalesced to `{}` by `parser_fn(soup) or {}`). -/
structure Parsed where
  title : Option String
  body : Option String
  author : Option String
  pubDate : Option String
  summary : Option String
deriving DecidableEq

/-- The empty parse result `{}`. -/
def emptyParsed : Parsed := ⟨none, none, none, none, none⟩

/-- The record handed to the article store by `save_article_to_db` /
`db.insert_news` (field order as at the call site; `topic` is always absent). -/
structure SaveArgs where
  portal : String
  url : String
  title : Option String
  content : Option String
  topic : Option String
  pubDate : Option String
  author : Option String
  articlePubDate : Option String
  summary : Option String
deriving DecidableEq

/-- `runner.save_article_to_db`: unified DB insert, `topic` always `None`. -/
def save_article_to_db (insert_news : SaveArgs → Bool) (portal link : String)
    (title body : Option String) (rssDate author articlePubDate summary : Option String) :
    Bool :=
  insert_news ⟨portal, link, title, body, none, rssDate, author, articlePubDate, summary⟩

/-- The runner's `rss_summary` loop over `("summary", "description")`. -/
def rss_summary_of (item : Item) : Option String :=
  first_stripped [item.summary, item.description]

/-- The set `BLOCK_PLACEHOLDER_TITLES` in `process_item`. -/
def BLOCK_PLACEHOLDER_TITLES : List String :=
  ["Sorry, you have been blocked"]

/-- Tail of `process_item` after the block-placeholder guard: the final
URL-slug safety net, the empty-title-and-body validation, and the save. -/
def finish_item (insert_news : SaveArgs → Bool) (source link : String)
    (rssDate : Option String)
    (title body author articlePubDate summary : Option String) : Bool :=
  -- `if not title:` try deriving again from the URL alone
  let title2 :=
    if py_falsy title then
      match title_from_url link with
      | some fb => if fb == "" then title else some fb
      | none => title
    else title
  -- validation: both title and body empty → skip
  if py_falsy title2 && py_falsy body then false
  else save_article_to_db insert_news source link title2 body rssDate author
    articlePubDate summary

/-- The HTML-or-RSS field resolution inside `runner.process_item`: decide
whether HTML is even attempted, fetch (a raised exception is caught and treated
as no-document), parse (a raised exception is caught and treated as `{}`), and
merge with the feed-derived fields.  Returns
`(title, body, author, article_pub_date, summary)`. -/
def resolve_item_fields (portals : String → Option PortalCfg)
    (parsers : String → Option (Soup → Except Unit (Option Parsed)))
    (fetched : Except Unit (Option Soup))
    (item : Item) :
    Option String × Option String × Option String × Option String × Option String :=
  let rssTitle := derive_title item
  let rssSummary := rss_summary_of item
  let mode := portal_mode portals item.source
  let parseFn := parsers item.source
  let shouldFetchHtml :=
    (mode == "simple" || mode == "hybrid" || mode == "browser") && parseFn.isSome
  if !shouldFetchHtml then
    -- RSS-only / no-parser path
    (rssTitle, none, none, none, rssSummary)
  else
    -- fetch HTML; `except Exception` → RSS-only fallback
    let soup := match fetched with
      | Except.error _ => none
      | Except.ok s => s
    match soup with
    | some doc =>
      -- parser; `except Exception` → `{}`; `parser_fn(soup) or {}`
      let parsed := match parseFn with
        | some f =>
          (match f doc with
           | Except.error _ => emptyParsed
           | Except.ok p => p.getD emptyParsed)
        | none => emptyParsed
      (py_or parsed.title rssTitle, parsed.body, parsed.author, parsed.pubDate,
        py_or parsed.summary rssSummary)
    | none =>
      -- HTML blocked / WAF / 403 etc.
      (rssTitle, none, none, none, rssSummary)

/-- `runner.process_item`.  `fetched` is the outcome of
`fetch_article_soup(source, link)` — a document, no document, or a raised
exception; a parser in the registry may itself raise or return `None`.
Returns `true` for Saved, `false` for Skipped. -/
def process_item (portals : String → Option PortalCfg)
    (parsers : String → Option (Soup → Except Unit (Option Parsed)))
    (fetched : Except Unit (Option Soup))
    (insert_news : SaveArgs → Bool)
    (item : Item) : Bool :=
  let source := item.source
  let link := item.link
  let rssTitle := derive_title item
  let rssDate := item.rssDate
  let rssSummary := rss_summary_of item
  if !portal_enabled portals source then false   -- skipping disabled portal
  else
    match resolve_item_fields portals parsers fetched item with
    | (title, body, author, articlePubDate, summary) =>
      -- block-page / WAF placeholder protection: `if title and title.strip() in B`
      let titleIsPlaceholder := match title with
        | some t => !(t == "") && BLOCK_PLACEHOLDER_TITLES.contains (py_strip t)
        | none => false
      if titleIsPlaceholder then
        -- fall back to RSS title/summary; skip if that too is placeholder/empty
        if py_falsy rssTitle ||
            BLOCK_PLACEHOLDER_TITLES.contains (py_strip (rssTitle.getD "")) then
          false
        else
          finish_item insert_news source link rssDate rssTitle none author
            articlePubDate rssSummary
      else
        finish_item insert_news source link rssDate title body author
          articlePubDate summary

/-! ## One full cycle with run statistics

Modelled from the spec: `core.db.init_db` (article store initialization) is not
among the source files; per the article-store contract it has no failure mode
relevant here, so the cycle embedding goes straight from configuration
validation to item processing.  `validate_portals` may raise (the one fatal
error), which `run_single_cycle` re-raises; every later step is the fold of
`process_item` over the collected items. -/

/-- Per-portal entry of the `stats` defaultdict. -/
structure PStat where
  total : Nat
  saved : Nat
  skipped : Nat
deriving DecidableEq

/-- Aggregate cycle counters plus the per-portal table. -/
structure CStats where
  saved : Nat
  skipped : Nat
  per : String → PStat

/-- The defaultdict's initial state: every portal at zero. -/
def init_stats : CStats := ⟨0, 0, fun _ => ⟨0, 0, 0⟩⟩

/-- One iteration of the item loop in `run_single_cycle`: bump the per-portal
total, process the item, and count it as saved or skipped. -/
def cycle_step (portals : String → Option PortalCfg)
    (parsers : String → Option (Soup → Except Unit (Option Parsed)))
    (fetchFor : Item → Except Unit (Option Soup))
    (insert_news : SaveArgs → Bool)
    (st : CStats) (item : Item) : CStats :=
  let portal := item.source
  let pst := st.per portal
  let ok := process_item portals parsers (fetchFor item) insert_news item
  if ok then
    { saved := st.saved + 1, skipped := st.skipped,
      per := fun q => if q == portal then ⟨pst.total + 1, pst.saved + 1, pst.skipped⟩
        else st.per q }
  else
    { saved := st.saved, skipped := st.skipped + 1,
      per := fun q => if q == portal then ⟨pst.total + 1, pst.saved, pst.skipped + 1⟩
        else st.per q }

/-- The item loop of `run_single_cycle` over the collected items. -/
def cycle_stats (portals : String → Option PortalCfg)
    (parsers : String → Option (Soup → Except Unit (Option Parsed)))
    (fetchFor : Item → Except Unit (Option Soup))
    (insert_news : SaveArgs → Bool)
    (items : List Item) : CStats :=
  items.foldl (cycle_step portals parsers fetchFor insert_news) init_stats

/-- `runner.run_single_cycle`: re-raise a configuration-validation error, else
process every collected item and emit the statistics. -/
def run_single_cycle (validate : Except String Unit)
    (portals : String → Option PortalCfg)
    (parsers : String → Option (Soup → Except Unit (Option Parsed)))
    (fetchFor : Item → Except Unit (Option Soup))
    (insert_news : SaveArgs → Bool)
    (items : List Item) : Except String CStats :=
  match validate with
  | Except.error e => Except.error e
  | Except.ok _ => Except.ok (cycle_stats portals parsers fetchFor insert_news items)

/-! ## Feed collector (rss_collector) -/

/-- A feedparser entry, reduced to the fields `_entry_to_item` reads: the link
(after byte-string decoding; absent when the entry has no link field), raw
title, raw summary, raw description, and the already-resolved publish date
(the value `_parse_rss_date` would return; its internals do not matter to any
claim here). -/
structure Entry where
  link : Option String
  title : Option String
  summary : Option String
  description : Option String
  rssDate : Option String
deriving DecidableEq

/-- The fixed substitution table of `_clean_rss_text`, in insertion order. -/
def ENTITY_REPLACEMENTS : List (String × String) :=
  [("&nbsp;", " "), ("&ensp;", " "), ("&emsp;", " "),
   ("&mdash;", "-"), ("&ndash;", "-"),
   ("&lsquo;", "'"), ("&rsquo;", "'"),
   ("&ldquo;", "\""), ("&rdquo;", "\"")]

/-- The replacement loop of `_clean_rss_text` over the stripped text. -/
def entity_replace (s : String) : String :=
  ENTITY_REPLACEMENTS.foldl (fun acc pr => py_replace acc pr.1 pr.2) s

/-- `rss_collector._clean_rss_text`: `None` for non-strings, else strip, apply
the substitution table, and return `text or None`. -/
def clean_rss_text (t : Option String) : Option String :=
  match t with
  | none => none
  | some s =>
    let s1 := entity_replace (py_strip s)
    if s1 == "" then none else some s1

/-- `rss_collector._entry_to_item`: `None` when the entry has no usable link,
else the item record (title and summary cleaned; description mirrors summary). -/
def entry_to_item (portalId : String) (e : Entry) : Option Item :=
  match e.link with
  | none => none
  | some l0 =>
    if l0 == "" then none                  -- `if not link`
    else
      let l := py_strip l0                 -- `link = str(link).strip()`
      if l == "" then none
      else
        -- `entry.summary or entry.description`, then cleanup
        let summary := clean_rss_text (py_or e.summary e.description)
        some { source := portalId, link := l, rssDate := e.rssDate,
               title := clean_rss_text e.title,
               summary := summary, description := summary }

/-- Modelled from the spec: `utils.state_manager.seen` is not among the source
files; per the seen-state contract it is membership in the durable set of
already-ingested URLs. -/
def seen (seenState : List String) (link : String) : Bool :=
  seenState.contains link

/-- Modelled from the spec: `utils.state_manager.mark_seen` is not among the
source files; per the seen-state contract it adds the URL to the durable set. -/
def mark_seen (seenState : List String) (link : String) : List String :=
  link :: seenState

/-- `config.portals.iter_enabled_portals`: portals whose `enabled` flag is set
(absent defaults to `False` here, unlike the runner's per-item check). -/
def iter_enabled (portalsList : List (String × PortalCfg)) : List (String × PortalCfg) :=
  portalsList.filter (fun pc => pc.2.enabled.getD false)

/-- The nested portal/feed/entry iteration of `collect`, flattened in iteration
order: each surviving feed contributes its entries tagged with the portal id.
A feed whose load failed (`_load_feed` returned `None`) contributes nothing,
exactly like the source's `continue`. -/
def collect_candidates (portalsList : List (String × PortalCfg))
    (feeds : String → Option (List Entry)) : List (String × Entry) :=
  ((iter_enabled portalsList).map (fun pc =>
    (((pc.2.rss.getD []).map (fun rssUrl =>
      match feeds rssUrl with
      | none => []
      | some entries => entries.map (fun e => (pc.1, e)))).flatten))).flatten

/-- The per-entry loop of `collect`: drop unusable entries, skip already-seen
links, and mark each accepted link seen immediately before appending. -/
def dedup_loop (seenState : List String) : List (String × Entry) → List Item × List String
  | [] => ([], seenState)
  | (pid, e) :: rest =>
    match entry_to_item pid e with
    | none => dedup_loop seenState rest
    | some item =>
      if seen seenState item.link then dedup_loop seenState rest
      else
        let res := dedup_loop (mark_seen seenState item.link) rest
        (item :: res.1, res.2)

/-- `rss_collector.collect`: the accepted items in order, together with the
final seen-state. -/
def collect (portalsList : List (String × PortalCfg))
    (feeds : String → Option (List Entry)) (seen0 : List String) :
    List Item × List String :=
  dedup_loop seen0 (collect_candidates portalsList feeds)

/-! ## Theorems

Everything below is proved about the definitions above; theorems named in the
claim results come with their helper lemmas, witnesses and counterexamples. -/

/-! ## Theorems about the HTTP strategy -/

/-- When every attempt raises a transport exception, every exception is caught,
no header is ever parsed and no response is recorded, so the exit path returns
the fabricated dummy result. -/
lemma get_aux_all_exc (env : Nat → AttemptOutcome) (h : ∀ k, env k = AttemptOutcome.exc) :
    ∀ rem attempt, ∃ sleeps, get_aux env rem attempt none =
      Except.ok (⟨599, "", true⟩, sleeps) := by
  intro rem
  induction rem with
  | zero => intro attempt; exact ⟨[], rfl⟩
  | succ n ih =>
    intro attempt
    obtain ⟨sl, hsl⟩ := ih (attempt + 1)
    refine ⟨(2 * (attempt : Int)) :: sl, ?_⟩
    simp only [get_aux, h attempt, hsl, Except.map]

/-- When the Retry-After header of every delivered response parses as an
integer, no step of the retry loop can raise. -/
lemma get_aux_ok_of_parse (env : Nat → AttemptOutcome)
    (h : ∀ k r, env k = AttemptOutcome.success r →
      (retry_after_value r.retryAfter).isOk = true) :
    ∀ rem attempt last, (get_aux env rem attempt last).isOk = true := by
  intro rem
  induction rem with
  | zero => intro attempt last; rfl
  | succ n ih =>
    intro attempt last
    cases henv : env attempt with
    | success r =>
      by_cases h200 : (r.status == 200) = true
      · simp only [get_aux, henv, h200, if_true]
        split <;> rfl
      · have h200f : (r.status == 200) = false := by simpa using h200
        by_cases h43 : (r.status == 403 || r.status == 429) = true
        · have hra := h attempt r henv
          cases hrav : retry_after_value r.retryAfter with
          | error e => rw [hrav] at hra; exact absurd hra (by simp [Except.isOk, Except.toBool])
          | ok v =>
            simp only [get_aux, henv, h200f, h43, Bool.false_eq_true, if_false,
              if_true, hrav]
            cases hrec : get_aux env n (attempt + 1) (some r) with
            | error e =>
              have := ih (attempt + 1) (some r)
              rw [hrec] at this
              exact absurd this (by simp [Except.isOk, Except.toBool])
            | ok rs => simp [hrec, Except.map, Except.isOk, Except.toBool]
        · have h43f : (r.status == 403 || r.status == 429) = false := by simpa using h43
          simp only [get_aux, henv, h200f, h43f, Bool.false_eq_true, if_false]
          cases hrec : get_aux env n (attempt + 1) (some r) with
          | error e =>
            have := ih (attempt + 1) (some r)
            rw [hrec] at this
            exact absurd this (by simp [Except.isOk, Except.toBool])
          | ok rs => simp [hrec, Except.map, Except.isOk, Except.toBool]
    | exc =>
      simp only [get_aux, henv]
      cases hrec : get_aux env n (attempt + 1) last with
      | error e =>
        have := ih (attempt + 1) last
        rw [hrec] at this
        exact absurd this (by simp [Except.isOk, Except.toBool])
      | ok rs => simp [hrec, Except.map, Except.isOk, Except.toBool]

/-- C1 counterexample: `get` does not always return a response-shaped value.
A 403 response whose Retry-After header is an HTTP-date (a form RFC 7231
permits) reaches `int()` at base_scraper.py:163 inside a handler that only
catches `requests.RequestException`, so the `ValueError` escapes to the
caller. -/
theorem http_get_nonnumeric_retry_after_cx :
    base_get (fun _ => AttemptOutcome.success
        ⟨403, "", some "Fri, 31 Dec 1999 23:59:59 GMT"⟩) 3 "https://host.example/x" =
      Except.error PyError.valueError ∧
    (Except.error PyError.valueError : Except PyError GetRun).isOk = false := by
  exact ⟨rfl, rfl⟩

/-- C1 (amended): the HTTP strategy's `get` catches transport exceptions and
otherwise returns a response-shaped value carrying a suspected-block flag —
except that a 403/429 response with a non-numeric Retry-After header raises
`ValueError` to the caller.  When every attempt raises a transport exception
(so every retry is exhausted without any response), it returns the synthetic
result with empty body, sentinel status code 599, and suspected-block = true;
and in every run whose delivered Retry-After headers parse as integers, `get`
returns rather than raises. -/
theorem http_get_outcomes (env : Nat → AttemptOutcome) (maxRetries : Nat) (url : String) :
    ((∀ k, env k = AttemptOutcome.exc) →
      ∃ sleeps, base_get env maxRetries url =
        Except.ok ⟨⟨599, "", true⟩, sleeps, normalize_domain (url_netloc url)⟩) ∧
    ((∀ k r, env k = AttemptOutcome.success r →
        (retry_after_value r.retryAfter).isOk = true) →
      (base_get env maxRetries url).isOk = true) := by
  constructor
  · intro h
    obtain ⟨sl, hsl⟩ := get_aux_all_exc env h maxRetries 1
    exact ⟨sl, by simp only [base_get, hsl, Except.map]⟩
  · intro h
    have := get_aux_ok_of_parse env h maxRetries 1 none
    cases hrec : get_aux env maxRetries 1 none with
    | error e => rw [hrec] at this; exact absurd this (by simp [Except.isOk, Except.toBool])
    | ok rs => simp [base_get, hrec, Except.map, Except.isOk, Except.toBool]

/-- Witness for `http_get_outcomes`: the all-exceptions run yields the
synthetic 599 result; a run of 403s with numeric Retry-After headers returns
rather than raises. -/
theorem http_get_outcomes_witness :
    (∃ sleeps, base_get (fun _ => AttemptOutcome.exc) 3 "https://host.example/x" =
      Except.ok ⟨⟨599, "", true⟩, sleeps,
        normalize_domain (url_netloc "https://host.example/x")⟩) ∧
    (base_get (fun _ => AttemptOutcome.success ⟨403, "", some "7"⟩) 3
      "https://host.example/x").isOk = true :=
  ⟨(http_get_outcomes (fun _ => AttemptOutcome.exc) 3 "https://host.example/x").1
      (fun _ => rfl),
    (http_get_outcomes (fun _ => AttemptOutcome.success ⟨403, "", some "7"⟩) 3
      "https://host.example/x").2
      (fun _ r hk => by cases hk; rfl)⟩

/-- C5 counterexample: when all retries are exhausted with no usable body,
`fetch_html` does not return null; it returns a parsed (empty) document,
because a returning `get` always yields a response-shaped value and the
`isinstance` guard that would produce `None` can never fire. -/
theorem base_fetch_html_never_none_cx :
    base_fetch_html (fun _ => AttemptOutcome.exc) 3 "https://host.example/x" =
      Except.ok (some ⟨""⟩) ∧
    (Except.ok (some (Soup.mk "")) : Except PyError (Option Soup)) ≠ Except.ok none := by
  refine ⟨rfl, by simp⟩

/-- C5 (amended): the HTTP strategy's `fetch_html` mirrors `get`: whenever
`get` returns, `fetch_html` returns a parsed document built from the response
body (the empty document when the body is empty) — the null branch is
unreachable — and whenever `get` raises (a non-numeric Retry-After header on a
403/429), `fetch_html` propagates that exception unchanged. -/
theorem base_fetch_html_mirrors_get (env : Nat → AttemptOutcome) (maxRetries : Nat)
    (url : String) :
    (∀ run, base_get env maxRetries url = Except.ok run →
      base_fetch_html env maxRetries url = Except.ok (some ⟨run.result.body⟩)) ∧
    (∀ e, base_get env maxRetries url = Except.error e →
      base_fetch_html env maxRetries url = Except.error e) := by
  constructor
  · intro run hrun
    simp only [base_fetch_html, hrun, py_or_str]
    split
    · next hb =>
      simp only [beq_iff_eq] at hb
      rw [hb]
    · rfl
  · intro e he
    simp only [base_fetch_html, he]

/-- Witness for `base_fetch_html_mirrors_get`: a clean 200 response yields the
parsed document of its body. -/
theorem base_fetch_html_mirrors_get_witness :
    base_fetch_html (fun _ => AttemptOutcome.success ⟨200, "plain article text", none⟩)
        3 "https://host.example/x" = Except.ok (some ⟨"plain article text"⟩) :=
  (base_fetch_html_mirrors_get
      (fun _ => AttemptOutcome.success ⟨200, "plain article text", none⟩)
      3 "https://host.example/x").1
    ⟨⟨200, "plain article text", false⟩, [], "host.example"⟩ rfl

/-- Each attempt of the retry loop records at most one backoff sleep, so a
returning run's trace never exceeds the number of attempts allowed. -/
lemma get_aux_sleeps_length (env : Nat → AttemptOutcome) :
    ∀ rem attempt last rs, get_aux env rem attempt last = Except.ok rs →
      rs.2.length ≤ rem := by
  intro rem
  induction rem with
  | zero =>
    intro attempt last rs h
    simp only [get_aux] at h
    cases h
    simp
  | succ n ih =>
    intro attempt last rs h
    cases henv : env attempt with
    | success r =>
      by_cases h200 : (r.status == 200) = true
      · simp only [get_aux, henv, h200, if_true] at h
        split at h <;> (cases h; simp)
      · have h200f : (r.status == 200) = false := by simpa using h200
        by_cases h43 : (r.status == 403 || r.status == 429) = true
        · simp only [get_aux, henv, h200f, h43, Bool.false_eq_true, if_false,
            if_true] at h
          cases hrav : retry_after_value r.retryAfter with
          | error e => rw [hrav] at h; exact absurd h (by simp)
          | ok v =>
            rw [hrav] at h
            cases hrec : get_aux env n (attempt + 1) (some r) with
            | error e => rw [hrec] at h; simp [Except.map] at h
            | ok rs2 =>
              rw [hrec] at h
              simp only [Except.map, Except.ok.injEq] at h
              cases h
              simpa using Nat.succ_le_succ (ih (attempt + 1) (some r) rs2 hrec)
        · have h43f : (r.status == 403 || r.status == 429) = false := by simpa using h43
          simp only [get_aux, henv, h200f, h43f, Bool.false_eq_true, if_false] at h
          cases hrec : get_aux env n (attempt + 1) (some r) with
          | error e => rw [hrec] at h; simp [Except.map] at h
          | ok rs2 =>
            rw [hrec] at h
            simp only [Except.map, Except.ok.injEq] at h
            cases h
            simpa using Nat.succ_le_succ (ih (attempt + 1) (some r) rs2 hrec)
    | exc =>
      simp only [get_aux, henv] at h
      cases hrec : get_aux env n (attempt + 1) last with
      | error e => rw [hrec] at h; simp [Except.map] at h
      | ok rs2 =>
        rw [hrec] at h
        simp only [Except.map, Except.ok.injEq] at h
        cases h
        simpa using Nat.succ_le_succ (ih (attempt + 1) last rs2 hrec)

/-- C7 (amended): in the retry loop of `BaseScraper.get`, a 403 or 429 response
whose Retry-After header parses to a positive value sleeps exactly that value
before the next attempt; with the header absent or non-positive the sleep is
4 x attempt_number; any other non-200 status, and any transport exception,
backs off 2 x attempt_number; and a returning run with `max_retries` attempts
records at most that many backoffs (3 at the source's default).  The
amendment: a present Retry-After of value 0 is not honoured, the code falls
back to 4 x attempt. -/
theorem retry_backoff_policy (env : Nat → AttemptOutcome) (rem attempt : Nat)
    (last : Option Resp0) (r : Resp0) (url : String) :
    (env attempt = AttemptOutcome.success r → (r.status = 403 ∨ r.status = 429) →
      ∀ ra, retry_after_value r.retryAfter = Except.ok ra → 0 < ra →
      get_aux env (rem + 1) attempt last =
        Except.map (fun rs => (rs.1, ra :: rs.2))
          (get_aux env rem (attempt + 1) (some r))) ∧
    (env attempt = AttemptOutcome.success r → (r.status = 403 ∨ r.status = 429) →
      ∀ ra, retry_after_value r.retryAfter = Except.ok ra → ra ≤ 0 →
      get_aux env (rem + 1) attempt last =
        Except.map (fun rs => (rs.1, (4 * (attempt : Int)) :: rs.2))
          (get_aux env rem (attempt + 1) (some r))) ∧
    (env attempt = AttemptOutcome.success r → r.status ≠ 200 → r.status ≠ 403 →
      r.status ≠ 429 →
      get_aux env (rem + 1) attempt last =
        Except.map (fun rs => (rs.1, (2 * (attempt : Int)) :: rs.2))
          (get_aux env rem (attempt + 1) (some r))) ∧
    (env attempt = AttemptOutcome.exc →
      get_aux env (rem + 1) attempt last =
        Except.map (fun rs => (rs.1, (2 * (attempt : Int)) :: rs.2))
          (get_aux env rem (attempt + 1) last)) ∧
    (∀ run, base_get env 3 url = Except.ok run → run.sleeps.length ≤ 3) := by
  refine ⟨?_, ?_, ?_, ?_, ?_⟩
  · intro henv hst ra hra hpos
    have h200 : (r.status == 200) = false := by
      rcases hst with h | h <;> simp [h]
    have h43 : (r.status == 403 || r.status == 429) = true := by
      rcases hst with h | h <;> simp [h]
    simp only [get_aux, henv, h200, h43, Bool.false_eq_true, if_false, if_true,
      hra, if_pos hpos]
  · intro henv hst ra hra hle
    have h200 : (r.status == 200) = false := by
      rcases hst with h | h <;> simp [h]
    have h43 : (r.status == 403 || r.status == 429) = true := by
      rcases hst with h | h <;> simp [h]
    have hnpos : ¬ (0 : Int) < ra := by omega
    simp only [get_aux, henv, h200, h43, Bool.false_eq_true, if_false, if_true,
      hra, if_neg hnpos]
  · intro henv hn200 hn403 hn429
    have h200 : (r.status == 200) = false := by simpa using hn200
    have h43 : (r.status == 403 || r.status == 429) = false := by
      simp [hn403, hn429]
    simp only [get_aux, henv, h200, h43, Bool.false_eq_true, if_false]
  · intro henv
    simp only [get_aux, henv]
  · intro run hrun
    simp only [base_get] at hrun
    cases hrec : get_aux env 3 1 none with
    | error e => rw [hrec] at hrun; simp [Except.map] at hrun
    | ok rs =>
      rw [hrec] at hrun
      simp only [Except.map, Except.ok.injEq] at hrun
      cases hrun
      simpa using get_aux_sleeps_length env 3 1 none rs hrec

/-- Witness for `retry_backoff_policy`: a 403 response with Retry-After 5 on
the first attempt sleeps 5 seconds before attempt 2 (spec scenario 3). -/
theorem retry_backoff_policy_witness :
    get_aux (fun _ => AttemptOutcome.success ⟨403, "", some "5"⟩) 3 1 none =
      Except.map (fun rs => (rs.1, 5 :: rs.2))
        (get_aux (fun _ => AttemptOutcome.success ⟨403, "", some "5"⟩) 2 2
          (some ⟨403, "", some "5"⟩)) :=
  (retry_backoff_policy (fun _ => AttemptOutcome.success ⟨403, "", some "5"⟩) 2 1 none
      ⟨403, "", some "5"⟩ "https://host.example/x").1
    rfl (Or.inl rfl) 5 rfl (by decide)

/-- C7 counterexample: the claim says a 403 response carrying a Retry-After
header sleeps the header's value; with the header present and equal to 0 the
code instead sleeps 4 x attempt_number, giving the trace [4, 8, 12] rather
than [0, 0, 0]. -/
theorem retry_after_zero_cx :
    base_get (fun _ => AttemptOutcome.success ⟨403, "", some "0"⟩) 3
        "https://host.example/x" =
      Except.ok ⟨⟨403, "", true⟩, [4, 8, 12], "host.example"⟩ ∧
    ([4, 8, 12] : List Int) ≠ [0, 0, 0] := by
  refine ⟨rfl, by decide⟩

/-! ## Theorems about domain normalization -/

/-- C6 counterexample: normalization does not leave non-leading occurrences of
`www.` intact; `str.replace` removes every occurrence, so the interior `www.`
of `news.www.example.com` is also stripped. -/
theorem normalize_domain_strips_all_cx :
    normalize_domain "news.www.example.com" = "news.example.com" ∧
    "news.example.com" ≠ "news.www.example.com" := by
  refine ⟨by decide, by decide⟩

/-- C6 (amended): domain normalization lower-cases the network location and
removes every occurrence of `www.` (not only a leading one), trimming
whitespace; and the very same normalization is used at every comparison site:
the browser strategy's copy of `normalize_domain` agrees with the HTTP
strategy's on all inputs, the per-domain delay bookkeeping key of `get` is
`normalize_domain` of the URL's netloc, and a leading `www.` with arbitrary
case is stripped as the docstring promises. -/
theorem normalize_domain_consistent :
    (∀ s, browser_normalize_domain s = normalize_domain s) ∧
    (∀ env maxRetries url run, base_get env maxRetries url = Except.ok run →
      run.delayKey = normalize_domain (url_netloc url)) ∧
    normalize_domain "WWW.BBC.com" = "bbc.com" ∧
    normalize_domain "news.www.example.com" = "news.example.com" := by
  refine ⟨fun s => rfl, ?_, by decide, by decide⟩
  intro env maxRetries url run h
  simp only [base_get] at h
  cases hrec : get_aux env maxRetries 1 none with
  | error e => rw [hrec] at h; simp [Except.map] at h
  | ok rs =>
    rw [hrec] at h
    simp only [Except.map, Except.ok.injEq] at h
    rw [← h]

/-- Witness for `normalize_domain_consistent`: the delay-bookkeeping key of a
run against `https://WWW.BBC.com/a` is the normalized domain `bbc.com`. -/
theorem normalize_domain_consistent_witness :
    (⟨⟨599, "", true⟩, [2, 4, 6], "bbc.com"⟩ : GetRun).delayKey =
      normalize_domain (url_netloc "https://WWW.BBC.com/a") :=
  normalize_domain_consistent.2.1 (fun _ => AttemptOutcome.exc) 3
    "https://WWW.BBC.com/a" ⟨⟨599, "", true⟩, [2, 4, 6], "bbc.com"⟩ rfl

/-- C3: for every URL whose normalized domain lies in the (normalized)
configured hard-domain set, a fetch in auto mode invokes the Browser strategy
directly and never attempts the HTTP strategy — the strategy trace is exactly
`[browser]` — and, the selection being a pure function of the configuration,
the URL and the mode alone (the conclusion holds for every base/browser
environment), every repeated call with that URL makes the same choice. -/
theorem auto_mode_hard_domain_browser_first (hardDomains : List String)
    (baseGet : Except Unit GetResult) (browser : BrowserParam) (url : String)
    (h : (mk_hybrid_hard_domains hardDomains).contains
          (normalize_domain (url_netloc url)) = true) :
    hybrid_fetch_html hardDomains baseGet browser url "auto" =
      Except.ok (fetch_with_browser browser, [Strat.browser]) := by
  simp only [hybrid_fetch_html, h]
  rfl

/-- Witness for `auto_mode_hard_domain_browser_first`: a hard-domain URL of the
`prothomalo` source, under auto mode, with a live base strategy available. -/
theorem auto_mode_hard_domain_browser_first_witness :
    hybrid_fetch_html ["prothomalo.com", "en.prothomalo.com"]
        (Except.ok ⟨200, "plain http body", false⟩)
        ⟨true, Except.ok (some "<html>rendered</html>")⟩
        "https://www.prothomalo.com/bangladesh/article-1" "auto" =
      Except.ok (fetch_with_browser ⟨true, Except.ok (some "<html>rendered</html>")⟩,
        [Strat.browser]) :=
  auto_mode_hard_domain_browser_first ["prothomalo.com", "en.prothomalo.com"]
    (Except.ok ⟨200, "plain http body", false⟩)
    ⟨true, Except.ok (some "<html>rendered</html>")⟩
    "https://www.prothomalo.com/bangladesh/article-1" (by decide)

/-- C4 counterexample: for the claim's own input — empty feed title, summary
and description, link `https://example.com/news/poison-the-plate-4044126`, no
HTML — the derived title is "Poison the plate 4044126", not the claimed
"Poison the plate": nothing in the code drops the trailing numeric ID (the
docstring of `_title_from_url` promises the same trimmed example and is
likewise contradicted by the function below it). -/
theorem title_from_url_numeric_id_cx :
    derive_title ⟨"example", "https://example.com/news/poison-the-plate-4044126",
        none, none, none, none⟩ = some "Poison the plate 4044126" ∧
    some "Poison the plate 4044126" ≠ some "Poison the plate" := by
  refine ⟨by decide, by decide⟩

/-- C4 (amended): the title-derivation fallback, applied when feed title,
summary and description are all empty and no HTML was fetched, derives the
title from the URL path's last segment by stripping the extension, replacing
`-` and `_` with spaces, and capitalizing the first letter; for the link
`https://example.com/news/poison-the-plate-4044126` the derived title is
"Poison the plate 4044126" (the trailing numeric ID is kept). -/
theorem title_fallback_algorithm :
    derive_title ⟨"example", "https://example.com/news/poison-the-plate-4044126",
        none, none, none, none⟩ = some "Poison the plate 4044126" ∧
    title_from_url "https://example.com/docs/annual_report.final.html" =
      some "Annual report" ∧
    title_from_url "https://example.com/x/hello-world" = some "Hello world" ∧
    derive_title ⟨"example", "https://example.com/news/flood-warning", none,
        some "  ", some "", none⟩ = some "Flood warning" := by
  refine ⟨by decide, by decide, by decide, by decide⟩

/-- C2: once configuration validation has passed, processing an item terminates
in Saved or Skipped without raising: a fetch that raises is treated exactly as
no-document, a parser that raises is treated exactly as an empty parse result,
and the cycle only aborts on a configuration-validation error — with validation
passed, `run_single_cycle` returns the statistics of folding `process_item`
over every collected item. -/
theorem process_item_error_containment
    (portals : String → Option PortalCfg)
    (p1 p2 : String → Option (Soup → Except Unit (Option Parsed)))
    (insert_news : SaveArgs → Bool) (item : Item) (soup : Soup)
    (f g : Soup → Except Unit (Option Parsed))
    (fetchFor : Item → Except Unit (Option Soup)) (items : List Item)
    (h1 : p1 item.source = some f) (h2 : f soup = Except.error ())
    (h3 : p2 item.source = some g) (h4 : g soup = Except.ok none) :
    process_item portals p1 (Except.error ()) insert_news item =
      process_item portals p1 (Except.ok none) insert_news item ∧
    process_item portals p1 (Except.ok (some soup)) insert_news item =
      process_item portals p2 (Except.ok (some soup)) insert_news item ∧
    run_single_cycle (Except.ok ()) portals p1 fetchFor insert_news items =
      Except.ok (cycle_stats portals p1 fetchFor insert_news items) := by
  refine ⟨rfl, ?_, rfl⟩
  have hres : resolve_item_fields portals p1 (Except.ok (some soup)) item =
      resolve_item_fields portals p2 (Except.ok (some soup)) item := by
    simp only [resolve_item_fields, h1, h2, h3, h4, Option.isSome_some,
      Option.getD_some, Option.getD_none]
  simp only [process_item, hres]

/-- Witness for `process_item_error_containment`: a crashing parser on a
hybrid-mode portal is contained exactly like a parser returning nothing. -/
theorem process_item_error_containment_witness :
    process_item (fun _ => some ⟨none, some true, some "hybrid", none⟩)
        (fun _ => some (fun _ => Except.error ()))
        (Except.error ()) (fun _ => true)
        ⟨"kalerkantho", "https://www.kalerkantho.com/a-b", none, some "T", none, none⟩ =
      process_item (fun _ => some ⟨none, some true, some "hybrid", none⟩)
        (fun _ => some (fun _ => Except.error ()))
        (Except.ok none) (fun _ => true)
        ⟨"kalerkantho", "https://www.kalerkantho.com/a-b", none, some "T", none, none⟩ ∧
    process_item (fun _ => some ⟨none, some true, some "hybrid", none⟩)
        (fun _ => some (fun _ => Except.error ()))
        (Except.ok (some ⟨"<html>body</html>"⟩)) (fun _ => true)
        ⟨"kalerkantho", "https://www.kalerkantho.com/a-b", none, some "T", none, none⟩ =
      process_item (fun _ => some ⟨none, some true, some "hybrid", none⟩)
        (fun _ => some (fun _ => Except.ok none))
        (Except.ok (some ⟨"<html>body</html>"⟩)) (fun _ => true)
        ⟨"kalerkantho", "https://www.kalerkantho.com/a-b", none, some "T", none, none⟩ ∧
    run_single_cycle (Except.ok ()) (fun _ => some ⟨none, some true, some "hybrid", none⟩)
        (fun _ => some (fun _ => Except.error ())) (fun _ => Except.ok none)
        (fun _ => true)
        [⟨"kalerkantho", "https://www.kalerkantho.com/a-b", none, some "T", none, none⟩] =
      Except.ok (cycle_stats (fun _ => some ⟨none, some true, some "hybrid", none⟩)
        (fun _ => some (fun _ => Except.error ())) (fun _ => Except.ok none)
        (fun _ => true)
        [⟨"kalerkantho", "https://www.kalerkantho.com/a-b", none, some "T", none, none⟩]) :=
  process_item_error_containment
    (fun _ => some ⟨none, some true, some "hybrid", none⟩)
    (fun _ => some (fun _ => Except.error ()))
    (fun _ => some (fun _ => Except.ok none))
    (fun _ => true)
    ⟨"kalerkantho", "https://www.kalerkantho.com/a-b", none, some "T", none, none⟩
    ⟨"<html>body</html>"⟩
    (fun _ => Except.error ()) (fun _ => Except.ok none)
    (fun _ => Except.ok none)
    [⟨"kalerkantho", "https://www.kalerkantho.com/a-b", none, some "T", none, none⟩]
    rfl rfl rfl rfl

/-- C8: when the HTML path runs and the parser's resolved title matches the
WAF-block placeholder, the orchestrator discards it and re-resolves from the
feed-derived title and summary with null body (author and article date, which
the guard does not reset, keep their parsed values); if the feed-derived title
is empty or itself a placeholder the item is Skipped. -/
theorem block_placeholder_guard
    (portals : String → Option PortalCfg)
    (parsers : String → Option (Soup → Except Unit (Option Parsed)))
    (insert_news : SaveArgs → Bool) (item : Item) (soup : Soup)
    (pf : Soup → Except Unit (Option Parsed)) (parsed : Parsed) (pt rt : String)
    (hen : portal_enabled portals item.source = true)
    (hmode : portal_mode portals item.source = "simple" ∨
      portal_mode portals item.source = "hybrid" ∨
      portal_mode portals item.source = "browser")
    (hpf : parsers item.source = some pf)
    (hps : pf soup = Except.ok (some parsed))
    (hpt : parsed.title = some pt)
    (hptne : pt ≠ "")
    (hptB : BLOCK_PLACEHOLDER_TITLES.contains (py_strip pt) = true) :
    (derive_title item = some rt → rt ≠ "" →
      BLOCK_PLACEHOLDER_TITLES.contains (py_strip rt) = false →
      process_item portals parsers (Except.ok (some soup)) insert_news item =
        insert_news ⟨item.source, item.link, some rt, none, none, item.rssDate,
          parsed.author, parsed.pubDate, rss_summary_of item⟩) ∧
    (derive_title item = none →
      process_item portals parsers (Except.ok (some soup)) insert_news item = false) ∧
    (derive_title item = some rt →
      BLOCK_PLACEHOLDER_TITLES.contains (py_strip rt) = true →
      process_item portals parsers (Except.ok (some soup)) insert_news item = false) := by
  have hptne2 : (pt == "") = false := by simp [hptne]
  have hmode2 : (portal_mode portals item.source == "simple" ||
      portal_mode portals item.source == "hybrid" ||
      portal_mode portals item.source == "browser") = true := by
    rcases hmode with h | h | h <;> rw [h] <;> rfl
  have hres : resolve_item_fields portals parsers (Except.ok (some soup)) item =
      (py_or (some pt) (derive_title item), parsed.body, parsed.author, parsed.pubDate,
        py_or parsed.summary (rss_summary_of item)) := by
    simp only [resolve_item_fields, hmode2, hpf, hps, hpt, Option.isSome_some,
      Bool.and_true, Bool.not_true, Bool.false_eq_true, if_false, Option.getD_some]
  have hpyor : ∀ t : Option String, py_or (some pt) t = some pt := by
    intro t
    simp only [py_or, hptne2, Bool.false_eq_true, if_false]
  refine ⟨?_, ?_, ?_⟩
  · intro hrt hrtne hrtB
    have hrtne2 : (rt == "") = false := by simp [hrtne]
    simp only [process_item]
    rw [hen, hres, hrt, hpyor]
    simp only [Bool.not_true, Bool.false_eq_true, if_false]
    simp only [hptne2, Bool.not_false, Bool.true_and, hptB, if_true]
    simp only [py_falsy, hrtne2, Option.getD_some, hrtB, Bool.or_false,
      Bool.false_eq_true, if_false]
    simp only [finish_item, py_falsy, hrtne2, Bool.false_eq_true, if_false,
      Bool.false_and, save_article_to_db]
  · intro hrt
    simp only [process_item]
    rw [hen, hres, hrt, hpyor]
    simp only [Bool.not_true, Bool.false_eq_true, if_false]
    simp only [hptne2, Bool.not_false, Bool.true_and, hptB, if_true]
    simp only [py_falsy, Bool.true_or, if_true]
  · intro hrt hrtB
    simp only [process_item]
    rw [hen, hres, hrt, hpyor]
    simp only [Bool.not_true, Bool.false_eq_true, if_false]
    simp only [hptne2, Bool.not_false, Bool.true_and, hptB, if_true]
    simp only [py_falsy, Option.getD_some, hrtB, Bool.or_true, if_true]

/-- Witness for `block_placeholder_guard`: the parser returns the placeholder
title while the feed title is "Economy grows 5%"; the stored record carries the
feed title and an absent body (spec scenario 2). -/
theorem block_placeholder_guard_witness :
    process_item (fun _ => some ⟨none, some true, some "hybrid", none⟩)
        (fun _ => some (fun _ => Except.ok
          (some ⟨some "Sorry, you have been blocked", some "<blocked>", some "Staff",
            some "2024-01-01", none⟩)))
        (Except.ok (some ⟨"<html>waf</html>"⟩)) (fun _ => true)
        ⟨"dailysun", "https://www.daily-sun.com/post/12345", none,
          some "Economy grows 5%", none, none⟩ =
      (fun _ => true : SaveArgs → Bool)
        ⟨"dailysun", "https://www.daily-sun.com/post/12345",
          some "Economy grows 5%", none, none, none, some "Staff", some "2024-01-01",
          rss_summary_of ⟨"dailysun", "https://www.daily-sun.com/post/12345", none,
            some "Economy grows 5%", none, none⟩⟩ :=
  (block_placeholder_guard
      (fun _ => some ⟨none, some true, some "hybrid", none⟩)
      (fun _ => some (fun _ => Except.ok
        (some ⟨some "Sorry, you have been blocked", some "<blocked>", some "Staff",
          some "2024-01-01", none⟩)))
      (fun _ => true)
      ⟨"dailysun", "https://www.daily-sun.com/post/12345", none,
        some "Economy grows 5%", none, none⟩
      ⟨"<html>waf</html>"⟩
      (fun _ => Except.ok
        (some ⟨some "Sorry, you have been blocked", some "<blocked>", some "Staff",
          some "2024-01-01", none⟩))
      ⟨some "Sorry, you have been blocked", some "<blocked>", some "Staff",
        some "2024-01-01", none⟩
      "Sorry, you have been blocked" "Economy grows 5%"
      rfl (Or.inr (Or.inl rfl)) rfl rfl rfl (by decide) (by decide)).1
    (by decide) (by decide) (by decide)

/-- Every item the entry conversion accepts has a non-empty link. -/
lemma entry_to_item_link_ne (pid : String) (e : Entry) (it : Item)
    (h : entry_to_item pid e = some it) : (it.link == "") = false := by
  simp only [entry_to_item] at h
  rcases hl : e.link with _ | l0
  · rw [hl] at h; simp at h
  · rw [hl] at h
    simp only [] at h
    by_cases h0 : (l0 == "") = true
    · rw [if_pos h0] at h; simp at h
    · rw [if_neg h0] at h
      by_cases h1 : (py_strip l0 == "") = true
      · rw [if_pos h1] at h; simp at h
      · rw [if_neg h1] at h
        have h2 := Option.some_inj.mp h
        rw [← h2]
        simpa using h1

/-- The dedup loop never emits an empty link, never emits a link already in the
incoming seen-state, and never emits the same link twice. -/
lemma dedup_loop_invariant (cands : List (String × Entry)) :
    ∀ seenState : List String,
      ((dedup_loop seenState cands).1.map (fun it => it.link)).Nodup ∧
      (∀ it ∈ (dedup_loop seenState cands).1, it.link ∉ seenState) ∧
      (dedup_loop seenState cands).1.all (fun it => !(it.link == "")) = true := by
  induction cands with
  | nil => intro s; simp [dedup_loop]
  | cons c rest ih =>
    intro s
    obtain ⟨pid, e⟩ := c
    simp only [dedup_loop]
    cases hit : entry_to_item pid e with
    | none => exact ih s
    | some item =>
      by_cases hseen : seen s item.link = true
      · simp only [hseen, if_true]
        exact ih s
      · have hseenf : seen s item.link = false := by simpa using hseen
        have hnotmem : item.link ∉ s := by
          simpa [seen] using hseenf
        simp only [hseenf, Bool.false_eq_true, if_false]
        obtain ⟨ih1, ih2, ih3⟩ := ih (mark_seen s item.link)
        refine ⟨?_, ?_, ?_⟩
        · simp only [List.map_cons, List.nodup_cons]
          refine ⟨?_, ih1⟩
          intro hmem
          obtain ⟨it2, hmem2, heq⟩ := List.mem_map.mp hmem
          have := ih2 it2 hmem2
          rw [heq] at this
          exact this (by simp [mark_seen])
        · intro it hmem
          rcases List.mem_cons.mp hmem with heq | hmem2
          · rw [heq]; exact hnotmem
          · intro habs
            exact ih2 it hmem2 (by simp [mark_seen, habs])
        · simp only [List.all_cons, Bool.and_eq_true]
          exact ⟨by simpa using entry_to_item_link_ne pid e item hit, ih3⟩

/-- C9: a `collect` run never emits an item with an empty link, and never emits
two items with the same link: entries without a usable link are dropped,
already-seen links are skipped, and each accepted link is marked seen
immediately, so it cannot be emitted twice within one call. -/
theorem collect_links_nodup_nonempty (portalsList : List (String × PortalCfg))
    (feeds : String → Option (List Entry)) (seen0 : List String) :
    ((collect portalsList feeds seen0).1.map (fun it => it.link)).Nodup ∧
    (collect portalsList feeds seen0).1.all (fun it => !(it.link == "")) = true := by
  obtain ⟨h1, _, h3⟩ := dedup_loop_invariant (collect_candidates portalsList feeds) seen0
  exact ⟨h1, h3⟩

/-- Each processed item adds exactly one to saved + skipped. -/
lemma cycle_fold_aggregate (portals : String → Option PortalCfg)
    (parsers : String → Option (Soup → Except Unit (Option Parsed)))
    (fetchFor : Item → Except Unit (Option Soup)) (insert_news : SaveArgs → Bool) :
    ∀ (items : List Item) (st0 : CStats),
      (items.foldl (cycle_step portals parsers fetchFor insert_news) st0).saved +
        (items.foldl (cycle_step portals parsers fetchFor insert_news) st0).skipped =
      st0.saved + st0.skipped + items.length := by
  intro items
  induction items with
  | nil => intro st0; simp
  | cons it rest ih =>
    intro st0
    simp only [List.foldl_cons, List.length_cons]
    rw [ih (cycle_step portals parsers fetchFor insert_news st0 it)]
    have hstep : (cycle_step portals parsers fetchFor insert_news st0 it).saved +
        (cycle_step portals parsers fetchFor insert_news st0 it).skipped =
        st0.saved + st0.skipped + 1 := by
      simp only [cycle_step]
      split <;> simp <;> omega
    omega

/-- Each step preserves the per-portal identity total = saved + skipped. -/
lemma cycle_fold_per (portals : String → Option PortalCfg)
    (parsers : String → Option (Soup → Except Unit (Option Parsed)))
    (fetchFor : Item → Except Unit (Option Soup)) (insert_news : SaveArgs → Bool) :
    ∀ (items : List Item) (st0 : CStats),
      (∀ p, (st0.per p).total = (st0.per p).saved + (st0.per p).skipped) →
      ∀ p, ((items.foldl (cycle_step portals parsers fetchFor insert_news) st0).per p).total =
        ((items.foldl (cycle_step portals parsers fetchFor insert_news) st0).per p).saved +
        ((items.foldl (cycle_step portals parsers fetchFor insert_news) st0).per p).skipped := by
  intro items
  induction items with
  | nil => intro st0 h p; exact h p
  | cons it rest ih =>
    intro st0 h p
    simp only [List.foldl_cons]
    refine ih _ ?_ p
    intro q
    have hs := h it.source
    have hq := h q
    simp only [cycle_step]
    split <;> by_cases hqe : (q == it.source) = true <;> simp [hqe] <;> omega

/-- C10: after a single cycle processes all collected items, the run
statistics are consistent: every portal's total equals its saved plus skipped
counts, and the aggregate saved plus skipped equals the number of items the
collector returned. -/
theorem run_stats_consistent (portals : String → Option PortalCfg)
    (parsers : String → Option (Soup → Except Unit (Option Parsed)))
    (fetchFor : Item → Except Unit (Option Soup)) (insert_news : SaveArgs → Bool)
    (portalsList : List (String × PortalCfg)) (feeds : String → Option (List Entry))
    (seen0 : List String) :
    (∀ p, ((cycle_stats portals parsers fetchFor insert_news
        (collect portalsList feeds seen0).1).per p).total =
      ((cycle_stats portals parsers fetchFor insert_news
        (collect portalsList feeds seen0).1).per p).saved +
      ((cycle_stats portals parsers fetchFor insert_news
        (collect portalsList feeds seen0).1).per p).skipped) ∧
    (cycle_stats portals parsers fetchFor insert_news
        (collect portalsList feeds seen0).1).saved +
      (cycle_stats portals parsers fetchFor insert_news
        (collect portalsList feeds seen0).1).skipped =
      (collect portalsList feeds seen0).1.length := by
  constructor
  · intro p
    exact cycle_fold_per portals parsers fetchFor insert_news
      (collect portalsList feeds seen0).1 init_stats (fun q => rfl) p
  · simpa [cycle_stats, init_stats] using cycle_fold_aggregate portals parsers fetchFor
      insert_news (collect portalsList feeds seen0).1 init_stats
